import Mathlib

/-!
Verification of the analytics core of the Podcast-Aggregator repository.

The repository exposes four Vercel serverless functions over the iTunes
podcast directory.  Their pure transformation layer is embedded here
shallowly:

* `formatDuration`        — api/episodes.js / api/search/episodes.js
* `analyzeEpisodes`       — api/podcasts/[id].js  (lookback cap 10)
* `estimateSchedule`      — api/podcasts/[id].js
* `estimateMetrics`       — api/podcasts/[id].js  (log10 heuristic)
* `generateEpisodeAnalytics` — api/episodes.js    (lookback cap 20)
* `estimateFrequency`     — api/episodes.js
* `estimateListeners`     — api/search/podcasts.js
* episode/podcast normalizers of the four handlers.

JavaScript numbers are modelled by `ℚ` (exact where the source computes
with integers and exact fractions) except `Math.log10`, modelled by
`Real.logb 10`.  `null`/`undefined`/absent fields are modelled by
`Option`; the JS falsiness of `0`/`""` is modelled explicitly at each
use site.  `Math.floor` on a number is `Int.floor`; on results that are
already integers, JS `/` composed with `Math.floor` is `Int.fdiv` and
JS `%` (sign of the dividend) is `Int.tmod`.
-/

attribute [local semireducible] Rat.add Rat.sub Rat.mul Rat.inv Rat.ofScientific

/-! ## JS number-to-string rendering (`Number.prototype.toString`) -/

/-- The decimal digit character of `d < 10`, as JS renders digits. -/
def digitChar (d : ℕ) : Char := Char.ofNat (48 + d)

/-- Decimal digits of `n`, most significant first, by fuelled structural
recursion (`[]` when `n = 0`). -/
def natToCharsAux : ℕ → ℕ → List Char
  | 0, _ => []
  | fuel + 1, n => if n = 0 then [] else natToCharsAux fuel (n / 10) ++ [digitChar (n % 10)]

/-- The decimal rendering of a natural number as a character list. -/
def natToChars (n : ℕ) : List Char := if n = 0 then ['0'] else natToCharsAux n n

/-- JS `String(n)` for a non-negative integer. -/
def natToString (n : ℕ) : String := ⟨natToChars n⟩

/-- JS `String(i)` for an integer (a `-` sign followed by the digits). -/
def intToString (i : ℤ) : String :=
  if i < 0 then "-" ++ natToString i.natAbs else natToString i.natAbs

/-- JS `String.prototype.padStart(n, c)`: left-pad to length `n` with `c`
(no-op when the string is already at least that long). -/
def padStart (s : String) (n : ℕ) (c : Char) : String :=
  ⟨List.replicate (n - s.data.length) c ++ s.data⟩

/-- The numeric value of a list of decimal digit characters. -/
def charsToNat (cs : List Char) : ℕ :=
  cs.foldl (fun acc c => 10 * acc + (c.toNat - 48)) 0

/-- Split a character list on a separator (the list-level model of JS
`String.prototype.split`). -/
def splitCh (sep : Char) : List Char → List (List Char)
  | [] => [[]]
  | c :: cs =>
    if c = sep then [] :: splitCh sep cs
    else
      match splitCh sep cs with
      | [] => [[c]]
      | r :: rs => (c :: r) :: rs

/-! ## `formatDuration` (identical in api/episodes.js and
api/search/episodes.js) -/

/-- The body of `formatDuration` past the falsy check, as a function of
`totalSeconds = Math.floor(ms / 1000)`: split into hours, minutes and
seconds (JS `%` keeps the dividend's sign, `Math.floor` of a JS division
of integers is `Int.fdiv`) and render the `hours > 0` or hourless
format. -/
def renderDuration (totalSeconds : ℤ) : String :=
  let hours : ℤ := Int.fdiv totalSeconds 3600
  let minutes : ℤ := Int.fdiv (Int.tmod totalSeconds 3600) 60
  let seconds : ℤ := Int.tmod totalSeconds 60
  if 0 < hours then
    intToString hours ++ ":" ++ padStart (intToString minutes) 2 '0' ++ ":" ++
      padStart (intToString seconds) 2 '0'
  else
    intToString minutes ++ ":" ++ padStart (intToString seconds) 2 '0'

/-- Embedding of `formatDuration(ms)`.  `none` stands for
`null`/`undefined`/`NaN` input; those and `0` are falsy and short-circuit
to `"0:00"`. -/
def formatDuration (ms : Option ℚ) : String :=
  match ms with
  | none => "0:00"
  | some v => if v = 0 then "0:00" else renderDuration ⌊v / 1000⌋

/-- The `"{x:02}"` rendering of the specification: a conditional
single-`0` prefix on renderings shorter than two characters. -/
def padCond (s : String) : String := if s.data.length < 2 then "0" ++ s else s

/-- The format the specification describes, written independently of the
implementation: falsy inputs render `"0:00"`; otherwise the branch on
`hours > 0` renders `"{hours}:{minutes:02}:{seconds:02}"` or
`"{minutes}:{seconds:02}"`, `"{x:02}"` meaning a conditional single-`0`
prefix (`padCond`). -/
def formatDurationSpec (ms : Option ℚ) : String :=
  match ms with
  | none => "0:00"
  | some v =>
    if v = 0 then "0:00"
    else
      let totalSeconds : ℤ := ⌊v / 1000⌋
      let hours : ℤ := Int.fdiv totalSeconds 3600
      let minutes : ℤ := Int.fdiv (Int.tmod totalSeconds 3600) 60
      let seconds : ℤ := Int.tmod totalSeconds 60
      if 0 < hours then
        intToString hours ++ ":" ++ padCond (intToString minutes) ++ ":" ++
          padCond (intToString seconds)
      else
        intToString minutes ++ ":" ++ padCond (intToString seconds)

/-- One component of a formatted duration: a non-empty run of decimal
digits, valued by `charsToNat`. -/
def digitsChunk (cs : List Char) : Option ℕ :=
  if cs ≠ [] ∧ cs.all Char.isDigit then some (charsToNat cs) else none

/-- Reverse parser of the two duration formats: `"H:MM:SS"` reads back as
`H*3600 + MM*60 + SS` seconds, `"M:SS"` as `M*60 + SS` seconds. -/
def parseDurationBack (s : String) : Option ℕ :=
  match (splitCh ':' s.data).map digitsChunk with
  | [some h, some m, some sec] => some (h * 3600 + m * 60 + sec)
  | [some m, some sec] => some (m * 60 + sec)
  | _ => none

/-! ## Date model: `new Date(string)` on the ISO-8601 strings the iTunes
directory returns (`"YYYY-MM-DDTHH:MM:SSZ"`), and `Date.prototype.toISOString`.
A parsed date is its epoch timestamp in milliseconds (`ℤ`), the value JS
date arithmetic (`dateA - dateB`, `getTime`) works with; an invalid date
(`NaN` timestamp) is `none`. -/

/-- Leap-year test of the proleptic Gregorian calendar. -/
def isLeapYear (y : ℤ) : Bool := (y % 4 = 0 ∧ ¬y % 100 = 0) ∨ y % 400 = 0

/-- Number of days of month `m` (1–12) in year `y`. -/
def daysInMonth (y : ℤ) (m : ℕ) : ℕ :=
  if m = 2 then (if isLeapYear y then 29 else 28)
  else if m = 4 ∨ m = 6 ∨ m = 9 ∨ m = 11 then 30
  else 31

/-- Days since 1970-01-01 of the civil date `y-m-d` (standard
era/year-of-era computation over the proleptic Gregorian calendar). -/
def daysFromCivil (y m d : ℤ) : ℤ :=
  let y' := if m ≤ 2 then y - 1 else y
  let era := Int.fdiv y' 400
  let yoe := y' - era * 400
  let mp := (m + 9) % 12
  let doy := Int.fdiv (153 * mp + 2) 5 + d - 1
  let doe := yoe * 365 + Int.fdiv yoe 4 - Int.fdiv yoe 100 + doy
  era * 146097 + doe - 719468

/-- Civil date `(y, m, d)` of a count of days since 1970-01-01 (inverse of
`daysFromCivil`). -/
def civilFromDays (z : ℤ) : ℤ × ℤ × ℤ :=
  let z' := z + 719468
  let era := Int.fdiv z' 146097
  let doe := z' - era * 146097
  let yoe := Int.fdiv (doe - Int.fdiv doe 1460 + Int.fdiv doe 36524 - Int.fdiv doe 146096) 365
  let y := yoe + era * 400
  let doy := doe - (365 * yoe + Int.fdiv yoe 4 - Int.fdiv yoe 100)
  let mp := Int.fdiv (5 * doy + 2) 153
  let d := doy - Int.fdiv (153 * mp + 2) 5 + 1
  let m := mp + (if mp < 10 then 3 else -9)
  (if m ≤ 2 then y + 1 else y, m, d)

/-- Numeric value of a decimal digit character. -/
def digitVal (c : Char) : ℕ := c.toNat - 48

/-- Embedding of `new Date(s).getTime()` for the `"YYYY-MM-DDTHH:MM:SSZ"`
strings the upstream directory produces: the epoch timestamp in
milliseconds, or `none` (an invalid date, `NaN` time value) for anything
that does not parse. -/
def parseISODate (s : String) : Option ℤ :=
  match s.data with
  | [y1, y2, y3, y4, s1, mo1, mo2, s2, d1, d2, t, h1, h2, s3, mi1, mi2, s4, se1, se2, z] =>
    if ([y1, y2, y3, y4, mo1, mo2, d1, d2, h1, h2, mi1, mi2, se1, se2].all Char.isDigit) ∧
        s1 = '-' ∧ s2 = '-' ∧ t = 'T' ∧ s3 = ':' ∧ s4 = ':' ∧ z = 'Z' then
      let y : ℕ := ((digitVal y1 * 10 + digitVal y2) * 10 + digitVal y3) * 10 + digitVal y4
      let mo : ℕ := digitVal mo1 * 10 + digitVal mo2
      let d : ℕ := digitVal d1 * 10 + digitVal d2
      let hh : ℕ := digitVal h1 * 10 + digitVal h2
      let mi : ℕ := digitVal mi1 * 10 + digitVal mi2
      let se : ℕ := digitVal se1 * 10 + digitVal se2
      if 1 ≤ mo ∧ mo ≤ 12 ∧ 1 ≤ d ∧ d ≤ daysInMonth y mo ∧ hh ≤ 23 ∧ mi ≤ 59 ∧ se ≤ 59 then
        some ((daysFromCivil y mo d * 86400 + hh * 3600 + mi * 60 + se) * 1000)
      else none
    else none
  | _ => none

/-- Left-pad the decimal rendering of `n` with zeros to `w` characters. -/
def padNum (n : ℕ) (w : ℕ) : String := padStart (natToString n) w '0'

/-- Embedding of `Date.prototype.toISOString` on a (non-negative-era)
epoch-millisecond timestamp: `"YYYY-MM-DDTHH:MM:SS.mmmZ"`. -/
def toISOString (ms : ℤ) : String :=
  let days := Int.fdiv ms 86400000
  let rem := (ms - days * 86400000).toNat
  let ymd := civilFromDays days
  let secs := rem / 1000
  padNum ymd.1.toNat 4 ++ "-" ++ padNum ymd.2.1.toNat 2 ++ "-" ++ padNum ymd.2.2.toNat 2 ++
    "T" ++ padNum (secs / 3600) 2 ++ ":" ++ padNum (secs % 3600 / 60) 2 ++ ":" ++
    padNum (secs % 60) 2 ++ "." ++ padNum (rem % 1000) 3 ++ "Z"

/-! ## Upstream record shapes.  Every field of an upstream record may be
absent (`none` models both a missing property and `null`). -/

/-- A raw episode record of the iTunes lookup payload, restricted to the
fields the four handlers read. -/
structure RawEpisode where
  trackId : Option ℤ := none
  collectionId : Option ℤ := none
  collectionName : Option String := none
  artistName : Option String := none
  trackName : Option String := none
  description : Option String := none
  releaseDate : Option String := none
  trackTimeMillis : Option ℤ := none
  trackViewUrl : Option String := none
  episodeUrl : Option String := none
  previewUrl : Option String := none
  artworkUrl60 : Option String := none
  artworkUrl160 : Option String := none
  artworkUrl600 : Option String := none
  contentAdvisoryRating : Option String := none
  country : Option String := none
  genres : Option (List String) := none
  primaryGenreName : Option String := none
deriving DecidableEq

/-- A raw podcast/collection record of the iTunes payload, restricted to
the fields the handlers read. -/
structure RawPodcast where
  collectionId : ℤ := 0
  collectionName : Option String := none
  artistName : Option String := none
  collectionCensoredName : Option String := none
  artworkUrl60 : Option String := none
  artworkUrl100 : Option String := none
  artworkUrl600 : Option String := none
  feedUrl : Option String := none
  collectionViewUrl : Option String := none
  genres : Option (List String) := none
  primaryGenreName : Option String := none
  trackCount : Option ℕ := none
  releaseDate : Option String := none
  country : Option String := none
  languageCodesISO2A : Option (List String) := none
  contentAdvisoryRating : Option String := none
deriving DecidableEq

/-- JS `a || b` on two optional strings: `undefined`/`null` and `""` are
falsy. -/
def jsOrString (a b : Option String) : Option String :=
  match a with
  | some s => if s = "" then b else some s
  | none => b

/-- JS `x?.toString()` on an optional integer. -/
def optToString (x : Option ℤ) : Option String := x.map intToString

/-! ## Episode normalizers -/

/-- The artwork object of the search-episode normalizer. -/
structure ArtworkTriple where
  small : Option String
  medium : Option String
  large : Option String
deriving DecidableEq

/-- The normalized episode shape produced by api/search/episodes.js. -/
structure NormalizedSearchEpisode where
  episode_id : Option String
  podcast_id : Option String
  podcast_name : Option String
  podcast_publisher : Option String
  title : Option String
  description : Option String
  release_date : Option String
  duration_ms : Option ℤ
  duration_formatted : String
  url : Option String
  audio_url : Option String
  artwork : ArtworkTriple
  content_rating : Option String
  country : Option String
  genres : List String
  primary_genre : Option String
deriving DecidableEq

/-- Embedding of the per-episode mapping of api/search/episodes.js
(`data.results.map(episode => ({...}))`). -/
def normalizeSearchEpisode (episode : RawEpisode) : NormalizedSearchEpisode where
  episode_id := optToString episode.trackId
  podcast_id := optToString episode.collectionId
  podcast_name := episode.collectionName
  podcast_publisher := episode.artistName
  title := episode.trackName
  description := episode.description
  release_date := episode.releaseDate
  duration_ms := episode.trackTimeMillis
  duration_formatted := formatDuration (episode.trackTimeMillis.map (fun t => (t : ℚ)))
  url := episode.trackViewUrl
  audio_url := jsOrString episode.episodeUrl episode.previewUrl
  artwork := ⟨episode.artworkUrl60, episode.artworkUrl160, episode.artworkUrl600⟩
  content_rating := episode.contentAdvisoryRating
  country := episode.country
  genres := episode.genres.getD []
  primary_genre := episode.primaryGenreName

/-- The normalized episode shape produced by api/episodes.js. -/
structure EpisodeRecord where
  id : Option String := none
  title : Option String := none
  description : Option String := none
  release_date : Option String := none
  duration_ms : Option ℤ := none
  duration_formatted : String := "0:00"
  url : Option String := none
  audio_url : Option String := none
  artwork : Option String := none
deriving DecidableEq

/-- Embedding of the per-episode mapping of api/episodes.js
(`lookupData.results.slice(1).map(ep => ({...}))`). -/
def normalizeEpisode (ep : RawEpisode) : EpisodeRecord where
  id := optToString ep.trackId
  title := ep.trackName
  description := ep.description
  release_date := ep.releaseDate
  duration_ms := ep.trackTimeMillis
  duration_formatted := formatDuration (ep.trackTimeMillis.map (fun t => (t : ℚ)))
  url := ep.trackViewUrl
  audio_url := ep.previewUrl
  artwork := jsOrString ep.artworkUrl600 ep.artworkUrl160

/-! ## The shared date/interval pipeline of the two analyzers -/

/-- Stable insertion of a timestamp into a descending-sorted list. -/
def insertDesc (x : ℤ) : List ℤ → List ℤ
  | [] => [x]
  | y :: ys => if y < x then x :: y :: ys else y :: insertDesc x ys

/-- Embedding of `dates.sort((a, b) => b - a)`: sort timestamps in
descending order (JS `Array.prototype.sort` is stable; on integer
timestamps any correct descending sort yields the same list). -/
def sortDesc (l : List ℤ) : List ℤ := l.foldr insertDesc []

/-- The `episodes.map(... new Date ...).filter(d => !isNaN(d.getTime()))`
step: parse each release-date field, dropping invalid dates. -/
def parsedDates (l : List (Option String)) : List ℤ :=
  l.filterMap (fun r => r.bind parseISODate)

/-- The capped interval averaging both analyzers perform on the
descending-sorted date list: the mean, in days, of the gaps of the first
`min(length - 1, cap)` consecutive pairs, `none` when fewer than two
dates survive parsing. -/
def intervalsAvg (cap : ℕ) (dates : List ℤ) : Option ℚ :=
  if 1 < dates.length then
    let k := min (dates.length - 1) cap
    let intervals := (List.range k).map
      (fun i => ((dates.getD i 0 - dates.getD (i + 1) 0 : ℤ) : ℚ) / 86400000)
    some (intervals.sum / intervals.length)
  else none

/-- JS `avgDaysBetween ? Math.round(avgDaysBetween) : null`: a `null` or
`0` (falsy) average yields `null`.  JS `Math.round` is `round` (half
towards positive infinity). -/
def jsRoundOpt (x : Option ℚ) : Option ℤ :=
  match x with
  | some v => if v = 0 then none else some (round v)
  | none => none

/-- The `durations` extraction both analyzers perform: divide each
duration field by 1000 and keep the strictly positive results (a missing
field produces `NaN`, which the `d > 0` filter also drops). -/
def positiveDurations (l : List (Option ℤ)) : List ℚ :=
  l.filterMap (fun t => t.bind (fun v =>
    if 0 < (v : ℚ) / 1000 then some ((v : ℚ) / 1000) else none))

/-- The `avgDuration` step of both analyzers: mean of the positive
durations, `0` when none survive. -/
def avgOrZero (l : List ℚ) : ℚ :=
  if 0 < l.length then l.sum / l.length else 0

/-! ## The two analyzers and their frequency classifiers -/

/-- Embedding of `estimateSchedule(avgDays)` of api/podcasts/[id].js.
`!avgDays` is true for `null` and for `0`. -/
def estimateSchedule (avgDays : Option ℚ) : String :=
  match avgDays with
  | none => "unknown"
  | some v =>
    if v = 0 then "unknown"
    else if v ≤ 1.5 then "daily"
    else if v ≤ 4 then "2-3 times per week"
    else if v ≤ 9 then "weekly"
    else if v ≤ 18 then "biweekly"
    else if v ≤ 35 then "monthly"
    else "irregular"

/-- Embedding of `estimateFrequency(avgDays)` of api/episodes.js (same
thresholds as `estimateSchedule`, different wording of the second
bucket). -/
def estimateFrequency (avgDays : Option ℚ) : String :=
  match avgDays with
  | none => "unknown"
  | some v =>
    if v = 0 then "unknown"
    else if v ≤ 1.5 then "daily"
    else if v ≤ 4 then "multiple times per week"
    else if v ≤ 9 then "weekly"
    else if v ≤ 18 then "biweekly"
    else if v ≤ 35 then "monthly"
    else "irregular"

/-- The classification of a positive average the specification describes:
inclusive upper bounds 1.5, 4, 9, 18, 35, with no falsy special case. -/
def freqLabelSpec (v : ℚ) : String :=
  if v ≤ 1.5 then "daily"
  else if v ≤ 4 then "multiple times per week"
  else if v ≤ 9 then "weekly"
  else if v ≤ 18 then "biweekly"
  else if v ≤ 35 then "monthly"
  else "irregular"

/-- The record `analyzeEpisodes` of api/podcasts/[id].js returns for a
non-empty episode list. -/
structure EpisodeAnalysis where
  average_duration_seconds : ℤ
  average_duration_minutes : ℤ
  publishing_frequency_days : Option ℤ
  estimated_schedule : String
  total_analyzed : ℕ
deriving DecidableEq

/-- Embedding of `analyzeEpisodes(episodes)` of api/podcasts/[id].js:
`null` on an empty list, otherwise duration and cadence statistics with
the interval lookback capped at 10 pairs. -/
def analyzeEpisodes (episodes : List RawEpisode) : Option EpisodeAnalysis :=
  if episodes = [] then none
  else
    let avgDuration := avgOrZero (positiveDurations (episodes.map (fun ep => ep.trackTimeMillis)))
    let dates := sortDesc (parsedDates (episodes.map (fun ep => ep.releaseDate)))
    let avgDaysBetween := intervalsAvg 10 dates
    some
      { average_duration_seconds := round avgDuration
        average_duration_minutes := round (avgDuration / 60)
        publishing_frequency_days := jsRoundOpt avgDaysBetween
        estimated_schedule := estimateSchedule avgDaysBetween
        total_analyzed := episodes.length }

/-- The record `generateEpisodeAnalytics` of api/episodes.js returns for
a non-empty episode list. -/
structure EpisodeAnalytics where
  total_episodes : ℕ
  average_duration_seconds : ℤ
  average_duration_formatted : String
  first_episode_date : Option String
  latest_episode_date : Option String
  average_days_between_episodes : Option ℤ
  publishing_frequency : String
deriving DecidableEq

/-- Embedding of `generateEpisodeAnalytics(episodes)` of api/episodes.js:
`null` on an empty list, otherwise aggregate statistics with the interval
lookback capped at 20 pairs. -/
def generateEpisodeAnalytics (episodes : List EpisodeRecord) : Option EpisodeAnalytics :=
  if episodes = [] then none
  else
    let avgDuration := avgOrZero (positiveDurations (episodes.map (fun ep => ep.duration_ms)))
    let dates := sortDesc (parsedDates (episodes.map (fun ep => ep.release_date)))
    let avgDaysBetween := intervalsAvg 20 dates
    some
      { total_episodes := episodes.length
        average_duration_seconds := round avgDuration
        average_duration_formatted := formatDuration (some (avgDuration * 1000))
        first_episode_date := dates.getLast?.map toISOString
        latest_episode_date := dates.head?.map toISOString
        average_days_between_episodes := jsRoundOpt avgDaysBetween
        publishing_frequency := estimateFrequency avgDaysBetween }

/-! ## The two popularity estimators -/

/-- The genre coefficient table of `estimateListeners`
(api/search/podcasts.js). -/
def baseMultiplier : List (String × ℚ) :=
  [("True Crime", 15000), ("News", 12000), ("Comedy", 10000), ("Business", 8000),
   ("Technology", 7000), ("Sports", 9000), ("Health & Fitness", 6000),
   ("Education", 5000), ("Society & Culture", 5500), ("default", 4000)]

/-- Embedding of `estimateListeners(episodeCount, genre)` of
api/search/podcasts.js.  `baseMultiplier[genre] || baseMultiplier.default`
is a plain lookup with default 4000: every table value is truthy, and an
absent genre (also `undefined`) misses the table. -/
def estimateListeners (episodeCount : ℚ) (genre : Option String) : ℤ :=
  let multiplier : ℚ := (genre.bind (fun g => baseMultiplier.lookup g)).getD 4000
  let episodeFactor : ℚ := min (episodeCount / 100) 5
  ⌊multiplier * (1 + episodeFactor)⌋

/-- The genre coefficient table of `estimateMetrics`
(api/podcasts/[id].js). -/
def genreMultipliers : List (String × ℚ) :=
  [("True Crime", 2.5), ("News", 2.0), ("Comedy", 1.8), ("Business", 1.6),
   ("Technology", 1.5), ("Sports", 1.7), ("Health & Fitness", 1.4), ("default", 1.0)]

/-- The record `estimateMetrics` returns. -/
structure EstimatedMetrics where
  estimated_weekly_listeners : ℤ
  estimated_downloads_per_episode : ℤ
  confidence : String
  note : String

/-- Embedding of `estimateMetrics(podcast, episodeCount)` of
api/podcasts/[id].js.  `Math.log10` is the real base-10 logarithm, so
this definition lives in `ℝ` and is not executable. -/
noncomputable def estimateMetrics (podcast : RawPodcast) (episodeCount : ℕ) : EstimatedMetrics :=
  let multiplier : ℚ :=
    (podcast.primaryGenreName.bind (fun g => genreMultipliers.lookup g)).getD 1.0
  let episodeFactor : ℝ := Real.logb 10 (episodeCount + 1)
  let baseListeners : ℝ := 5000
  let estimatedWeeklyListeners : ℤ := ⌊baseListeners * (multiplier : ℝ) * episodeFactor⌋
  { estimated_weekly_listeners := estimatedWeeklyListeners
    estimated_downloads_per_episode := ⌊(estimatedWeeklyListeners : ℝ) * 0.7⌋
    confidence := "low"
    note := "Estimates based on genre, episode count, and industry averages" }

/-! ## The podcast-detail normalizer (the `podcastDetails` object literal
of api/podcasts/[id].js) -/

/-- JS `a || b` where `a` is an optional count: `undefined` and `0` are
falsy. -/
def jsOrNat (a : Option ℕ) (b : ℕ) : ℕ :=
  match a with
  | some n => if n = 0 then b else n
  | none => b

/-- The `artwork` object of `podcastDetails`. -/
structure PodcastArtwork where
  url_60 : Option String
  url_100 : Option String
  url_600 : Option String
deriving DecidableEq

/-- The `metadata` object of `podcastDetails`. -/
structure PodcastMetadata where
  feed_url : Option String
  itunes_url : Option String
  itunes_id : ℤ
  copyright : Option String
  author : Option String
deriving DecidableEq

/-- The `categories` object of `podcastDetails`. -/
structure PodcastCategories where
  genres : List String
  primary_genre : Option String
deriving DecidableEq

/-- The `stats` object of `podcastDetails`. -/
structure PodcastStats where
  episode_count : ℕ
  release_date : Option String
  latest_episode_date : Option String
  country : Option String
  language : String
  explicit : Bool
deriving DecidableEq

/-- One entry of the `recent_episodes` list of `podcastDetails`. -/
structure RecentEpisode where
  id : Option String
  title : Option String
  description : String
  release_date : Option String
  duration : Option ℤ
  url : Option String
deriving DecidableEq

/-- The response shape of api/podcasts/[id].js. -/
structure PodcastDetails where
  id : String
  name : Option String
  publisher : Option String
  description : Option String
  artwork : PodcastArtwork
  metadata : PodcastMetadata
  categories : PodcastCategories
  stats : PodcastStats
  episode_insights : Option EpisodeAnalysis
  recent_episodes : List RecentEpisode
  estimated_metrics : EstimatedMetrics

/-- Embedding of the `podcastDetails` object the api/podcasts/[id].js
handler compiles from the looked-up collection record and episode list. -/
noncomputable def podcastDetails (podcastInfo : RawPodcast) (episodes : List RawEpisode) :
    PodcastDetails where
  id := intToString podcastInfo.collectionId
  name := podcastInfo.collectionName
  publisher := podcastInfo.artistName
  description := podcastInfo.collectionCensoredName
  artwork := ⟨podcastInfo.artworkUrl60, podcastInfo.artworkUrl100, podcastInfo.artworkUrl600⟩
  metadata :=
    { feed_url := podcastInfo.feedUrl
      itunes_url := podcastInfo.collectionViewUrl
      itunes_id := podcastInfo.collectionId
      copyright := none
      author := podcastInfo.artistName }
  categories := ⟨podcastInfo.genres.getD [], podcastInfo.primaryGenreName⟩
  stats :=
    { episode_count := jsOrNat podcastInfo.trackCount episodes.length
      release_date := podcastInfo.releaseDate
      latest_episode_date := episodes.head?.bind (fun ep => ep.releaseDate)
      country := podcastInfo.country
      language := (jsOrString (podcastInfo.languageCodesISO2A.bind List.head?) (some "en")).getD "en"
      explicit := podcastInfo.contentAdvisoryRating = some "Explicit" }
  episode_insights := analyzeEpisodes episodes
  recent_episodes := (episodes.take 10).map (fun ep =>
    { id := optToString ep.trackId
      title := ep.trackName
      description := (ep.description.map (fun s => s.take 200)).getD ""
      release_date := ep.releaseDate
      duration := ep.trackTimeMillis
      url := ep.trackViewUrl })
  estimated_metrics := estimateMetrics podcastInfo episodes.length

/-! ## Concrete inputs used by the testable properties -/

/-- Three episodes released exactly 7 days apart. -/
def weeklyEpisodes : List EpisodeRecord :=
  [{ release_date := some "2020-02-15T00:00:00Z" },
   { release_date := some "2020-02-08T00:00:00Z" },
   { release_date := some "2020-02-01T00:00:00Z" }]

/-- Two episodes with the same valid release timestamp: two valid dates,
but a zero average gap. -/
def sameDayEpisodes : List EpisodeRecord :=
  [{ release_date := some "2020-02-15T00:00:00Z" },
   { release_date := some "2020-02-15T00:00:00Z" }]

/-- Twenty-five episodes at exact 1-day spacing (2020-02-25 down to
2020-02-01) followed by one episode 1000 days earlier (2017-05-07): the
large gap sits at pair position 25, beyond a 20-pair lookback window. -/
def dailyThenGapEpisodes : List EpisodeRecord :=
  [{ release_date := some "2020-02-25T00:00:00Z" },
   { release_date := some "2020-02-24T00:00:00Z" },
   { release_date := some "2020-02-23T00:00:00Z" },
   { release_date := some "2020-02-22T00:00:00Z" },
   { release_date := some "2020-02-21T00:00:00Z" },
   { release_date := some "2020-02-20T00:00:00Z" },
   { release_date := some "2020-02-19T00:00:00Z" },
   { release_date := some "2020-02-18T00:00:00Z" },
   { release_date := some "2020-02-17T00:00:00Z" },
   { release_date := some "2020-02-16T00:00:00Z" },
   { release_date := some "2020-02-15T00:00:00Z" },
   { release_date := some "2020-02-14T00:00:00Z" },
   { release_date := some "2020-02-13T00:00:00Z" },
   { release_date := some "2020-02-12T00:00:00Z" },
   { release_date := some "2020-02-11T00:00:00Z" },
   { release_date := some "2020-02-10T00:00:00Z" },
   { release_date := some "2020-02-09T00:00:00Z" },
   { release_date := some "2020-02-08T00:00:00Z" },
   { release_date := some "2020-02-07T00:00:00Z" },
   { release_date := some "2020-02-06T00:00:00Z" },
   { release_date := some "2020-02-05T00:00:00Z" },
   { release_date := some "2020-02-04T00:00:00Z" },
   { release_date := some "2020-02-03T00:00:00Z" },
   { release_date := some "2020-02-02T00:00:00Z" },
   { release_date := some "2020-02-01T00:00:00Z" },
   { release_date := some "2017-05-07T00:00:00Z" }]

/-- One well-formed raw episode (a valid release date and duration). -/
def demoRawEpisodes : List RawEpisode :=
  [{ releaseDate := some "2024-01-15T08:00:00Z", trackTimeMillis := some 1800000 },
   { releaseDate := some "2024-01-08T08:00:00Z", trackTimeMillis := some 1500000 }]

/-- A degenerate raw episode: no duration, unparseable release date. -/
def badRawEpisode : RawEpisode := { releaseDate := some "not a date" }

/-- The genre table of the search-context estimator as the specification
lists it: True Crime 15000, News 12000, Comedy 10000, Business 8000,
Technology 7000, Sports 9000, Health & Fitness 6000, Education 5000,
Society & Culture 5500, and 4000 for every other genre string. -/
def searchMultSpec (genre : String) : ℕ :=
  match genre with
  | "True Crime" => 15000
  | "News" => 12000
  | "Comedy" => 10000
  | "Business" => 8000
  | "Technology" => 7000
  | "Sports" => 9000
  | "Health & Fitness" => 6000
  | "Education" => 5000
  | "Society & Culture" => 5500
  | _ => 4000

/-! ## Sanity of the date model (checked against real Unix timestamps) -/

theorem parseISODate_epoch : parseISODate "1970-01-01T00:00:00Z" = some 0 := by decide

theorem parseISODate_sample : parseISODate "2024-02-29T12:30:05Z" = some 1709209805000 := by
  decide

theorem parseISODate_rejects_invalid_day : parseISODate "2023-02-29T00:00:00Z" = none := by
  decide

theorem parseISODate_rejects_malformed : parseISODate "not a date" = none := by decide

theorem toISOString_sample : toISOString 1709209805000 = "2024-02-29T12:30:05.000Z" := by decide

/-! ## Lemmas on the digit rendering -/

theorem digitChar_isDigit {d : ℕ} (h : d < 10) : (digitChar d).isDigit = true := by
  interval_cases d <;> decide

theorem digitChar_toNat {d : ℕ} (h : d < 10) : (digitChar d).toNat = 48 + d := by
  interval_cases d <;> decide

theorem natToCharsAux_digits (fuel : ℕ) : ∀ n, (natToCharsAux fuel n).all Char.isDigit = true := by
  induction fuel with
  | zero => intro n; rfl
  | succ fuel ih =>
    intro n
    rw [natToCharsAux]
    split
    · rfl
    · rw [List.all_append, ih]
      simp [digitChar_isDigit (Nat.mod_lt n (by norm_num))]

theorem charsToNat_append_singleton (xs : List Char) (c : Char) :
    charsToNat (xs ++ [c]) = 10 * charsToNat xs + (c.toNat - 48) := by
  simp [charsToNat, List.foldl_append]

theorem charsToNat_natToCharsAux (fuel : ℕ) :
    ∀ n, n ≤ fuel → charsToNat (natToCharsAux fuel n) = n := by
  induction fuel with
  | zero =>
    intro n h
    interval_cases n
    rfl
  | succ fuel ih =>
    intro n h
    rw [natToCharsAux]
    split
    · simp [charsToNat, *]
    · rename_i h0
      rw [charsToNat_append_singleton, ih (n / 10) (by omega),
        digitChar_toNat (Nat.mod_lt n (by norm_num))]
      omega

theorem natToChars_digits (n : ℕ) : (natToChars n).all Char.isDigit = true := by
  rw [natToChars]
  split
  · rfl
  · exact natToCharsAux_digits n n

theorem natToChars_ne_nil (n : ℕ) : natToChars n ≠ [] := by
  rw [natToChars]
  split
  · simp
  · rename_i h0
    cases n with
    | zero => exact absurd rfl h0
    | succ m =>
      rw [natToCharsAux, if_neg h0]
      simp

theorem charsToNat_natToChars (n : ℕ) : charsToNat (natToChars n) = n := by
  rw [natToChars]
  split
  · simp [charsToNat, *]
  · exact charsToNat_natToCharsAux n n le_rfl

theorem charsToNat_cons_zero (cs : List Char) : charsToNat ('0' :: cs) = charsToNat cs := rfl

theorem charsToNat_replicate_zero (k : ℕ) (cs : List Char) :
    charsToNat (List.replicate k '0' ++ cs) = charsToNat cs := by
  induction k with
  | zero => rfl
  | succ k ih => rw [List.replicate_succ, List.cons_append, charsToNat_cons_zero, ih]

theorem isDigit_ne_colon {c : Char} (h : c.isDigit = true) : c ≠ ':' := by
  intro h'
  subst h'
  exact absurd h (by decide)

theorem colon_not_mem_of_digits {cs : List Char} (h : cs.all Char.isDigit = true) : ':' ∉ cs := by
  intro hm
  exact absurd (List.all_eq_true.mp h _ hm) (by decide)

/-! ## Lemmas on `splitCh` -/

theorem splitCh_of_not_mem {sep : Char} : ∀ {a : List Char}, sep ∉ a → splitCh sep a = [a] := by
  intro a
  induction a with
  | nil => intro _; rfl
  | cons c cs ih =>
    intro h
    rw [splitCh, if_neg (by simp at h; exact Ne.symm h.1), ih (by simp at h; exact h.2)]

theorem splitCh_append {sep : Char} :
    ∀ {a : List Char} (b : List Char), sep ∉ a →
      splitCh sep (a ++ sep :: b) = a :: splitCh sep b := by
  intro a
  induction a with
  | nil => intro b _; rw [List.nil_append, splitCh, if_pos rfl]
  | cons c cs ih =>
    intro b h
    rw [List.cons_append, splitCh, if_neg (by simp at h; exact Ne.symm h.1),
      ih b (by simp at h; exact h.2)]

/-! ## Lemmas on the duration rendering -/

theorem intToString_ofNat (m : ℕ) : intToString (m : ℤ) = natToString m := by
  rw [intToString, if_neg (by omega), Int.natAbs_ofNat]

theorem intToString_data_ne_nil (i : ℤ) : (intToString i).data ≠ [] := by
  rw [intToString]
  split
  · rw [String.data_append]
    simp
  · exact natToChars_ne_nil _

theorem padStart_two_eq_padCond (s : String) (h : s.data ≠ []) : padStart s 2 '0' = padCond s := by
  cases hs : s.data with
  | nil => exact absurd hs h
  | cons c cs =>
    cases cs with
    | nil =>
      apply String.ext
      rw [padCond]
      rw [if_pos (by rw [hs]; norm_num)]
      rw [String.data_append, padStart, hs]
      rfl
    | cons c2 cs2 =>
      apply String.ext
      rw [padCond, if_neg (by rw [hs]; simp only [List.length_cons]; omega)]
      have h2 : 2 - s.data.length = 0 := by rw [hs]; simp only [List.length_cons]; omega
      show List.replicate (2 - s.data.length) '0' ++ s.data = s.data
      rw [h2, List.replicate_zero, List.nil_append]

theorem renderDuration_eq_spec (ts : ℤ) :
    renderDuration ts =
      (if 0 < Int.fdiv ts 3600 then
        intToString (Int.fdiv ts 3600) ++ ":" ++
          padCond (intToString (Int.fdiv (Int.tmod ts 3600) 60)) ++ ":" ++
          padCond (intToString (Int.tmod ts 60))
      else
        intToString (Int.fdiv (Int.tmod ts 3600) 60) ++ ":" ++
          padCond (intToString (Int.tmod ts 60))) := by
  rw [renderDuration]
  split
  · rw [padStart_two_eq_padCond _ (intToString_data_ne_nil _),
      padStart_two_eq_padCond _ (intToString_data_ne_nil _)]
  · rw [padStart_two_eq_padCond _ (intToString_data_ne_nil _)]

/-- C1: `formatDuration` is total on millisecond inputs: falsy inputs
(`null`/`undefined`/`NaN`, modelled `none`, and `0`) return `"0:00"`, and
every other input is rendered as `"{hours}:{minutes:02}:{seconds:02}"`
when `floor(floor(ms/1000)/3600) > 0` and `"{minutes}:{seconds:02}"`
otherwise, with `totalSeconds = floor(ms/1000)`,
`minutes = floor((totalSeconds % 3600)/60)`, `seconds = totalSeconds % 60`
(`formatDurationSpec`); in particular `formatDuration(65000) = "1:05"`
and `formatDuration(3725000) = "1:02:05"`. -/
theorem formatDuration_meets_spec :
    (∀ ms : Option ℚ, formatDuration ms = formatDurationSpec ms) ∧
    formatDuration none = "0:00" ∧ formatDuration (some 0) = "0:00" ∧
    formatDuration (some 65000) = "1:05" ∧ formatDuration (some 3725000) = "1:02:05" := by
  refine ⟨?_, rfl, by decide, by decide, by decide⟩
  intro ms
  cases ms with
  | none => rfl
  | some v =>
    show (if v = 0 then "0:00" else renderDuration ⌊v / 1000⌋) = formatDurationSpec (some v)
    rw [formatDurationSpec]
    split
    · rfl
    · exact renderDuration_eq_spec _

/-! ## The round trip of the two duration formats -/

theorem fdiv_coe_nat (m n : ℕ) : Int.fdiv (m : ℤ) (n : ℤ) = ((m / n : ℕ) : ℤ) := by
  rw [Int.fdiv_eq_ediv _ (by omega)]
  exact (Int.ofNat_div m n).symm

theorem tmod_coe_nat (m n : ℕ) : Int.tmod (m : ℤ) (n : ℤ) = ((m % n : ℕ) : ℤ) := by
  rw [Int.tmod_eq_emod (by omega) (by omega)]
  exact (Int.ofNat_mod m n).symm

theorem renderDuration_natCast (N : ℕ) :
    renderDuration (N : ℤ) =
      if 0 < N / 3600 then
        natToString (N / 3600) ++ ":" ++ padStart (natToString (N % 3600 / 60)) 2 '0' ++ ":" ++
          padStart (natToString (N % 60)) 2 '0'
      else
        natToString (N % 3600 / 60) ++ ":" ++ padStart (natToString (N % 60)) 2 '0' := by
  rw [renderDuration]
  rw [show (3600 : ℤ) = ((3600 : ℕ) : ℤ) from rfl, show (60 : ℤ) = ((60 : ℕ) : ℤ) from rfl]
  simp only [tmod_coe_nat, fdiv_coe_nat, intToString_ofNat, Int.natCast_pos]

theorem colon_not_mem_natToChars (n : ℕ) : ':' ∉ natToChars n :=
  colon_not_mem_of_digits (natToChars_digits n)

theorem replicate_zero_all_digits (k : ℕ) : (List.replicate k '0').all Char.isDigit = true := by
  simp [List.all_eq_true, List.mem_replicate]

theorem colon_not_mem_padded (k n : ℕ) : ':' ∉ List.replicate k '0' ++ natToChars n := by
  intro hm
  rcases List.mem_append.mp hm with h | h
  · exact absurd (List.eq_of_mem_replicate h) (by decide)
  · exact colon_not_mem_natToChars n h

theorem digitsChunk_natToChars (n : ℕ) : digitsChunk (natToChars n) = some n := by
  rw [digitsChunk, if_pos ⟨natToChars_ne_nil n, natToChars_digits n⟩, charsToNat_natToChars]

theorem digitsChunk_padded (k n : ℕ) :
    digitsChunk (List.replicate k '0' ++ natToChars n) = some n := by
  rw [digitsChunk,
    if_pos ⟨by simp [natToChars_ne_nil n],
      by rw [List.all_append, replicate_zero_all_digits, natToChars_digits]; rfl⟩,
    charsToNat_replicate_zero, charsToNat_natToChars]

theorem padStart_natToString_data (m : ℕ) :
    (padStart (natToString m) 2 '0').data =
      List.replicate (2 - (natToChars m).length) '0' ++ natToChars m := rfl

theorem parseDurationBack_hms (H M Sec : ℕ) :
    parseDurationBack (natToString H ++ ":" ++ padStart (natToString M) 2 '0' ++ ":" ++
      padStart (natToString Sec) 2 '0') = some (H * 3600 + M * 60 + Sec) := by
  have hdata : (natToString H ++ ":" ++ padStart (natToString M) 2 '0' ++ ":" ++
      padStart (natToString Sec) 2 '0').data =
      natToChars H ++ ':' ::
        ((List.replicate (2 - (natToChars M).length) '0' ++ natToChars M) ++ ':' ::
          (List.replicate (2 - (natToChars Sec).length) '0' ++ natToChars Sec)) := by
    simp only [String.data_append, padStart_natToString_data,
      show (":" : String).data = [':'] from rfl, show (natToString H).data = natToChars H from rfl,
      List.append_assoc, List.cons_append, List.nil_append, List.singleton_append]
  rw [parseDurationBack, hdata,
    splitCh_append _ (colon_not_mem_natToChars H),
    splitCh_append _ (colon_not_mem_padded _ M),
    splitCh_of_not_mem (colon_not_mem_padded _ Sec),
    List.map_cons, List.map_cons, List.map_cons, List.map_nil,
    digitsChunk_natToChars, digitsChunk_padded, digitsChunk_padded]

theorem parseDurationBack_min_sec (M Sec : ℕ) :
    parseDurationBack (natToString M ++ ":" ++ padStart (natToString Sec) 2 '0') =
      some (M * 60 + Sec) := by
  have hdata : (natToString M ++ ":" ++ padStart (natToString Sec) 2 '0').data =
      natToChars M ++ ':' ::
        (List.replicate (2 - (natToChars Sec).length) '0' ++ natToChars Sec) := by
    simp only [String.data_append, padStart_natToString_data,
      show (":" : String).data = [':'] from rfl, show (natToString M).data = natToChars M from rfl,
      List.append_assoc, List.cons_append, List.nil_append, List.singleton_append]
  rw [parseDurationBack, hdata,
    splitCh_append _ (colon_not_mem_natToChars M),
    splitCh_of_not_mem (colon_not_mem_padded _ Sec),
    List.map_cons, List.map_cons, List.map_nil,
    digitsChunk_natToChars, digitsChunk_padded]

/-- C8: for every non-negative millisecond input, parsing the formatted
duration back by inverting the `hours > 0` / `hours = 0` branch formats
(`"H:MM:SS"` as `H*3600 + MM*60 + SS` seconds, `"M:SS"` as `M*60 + SS`
seconds) recovers `floor(ms / 1000)`, the same total seconds. -/
theorem formatDuration_round_trip :
    ∀ ms : ℚ, 0 ≤ ms →
      parseDurationBack (formatDuration (some ms)) = some ⌊ms / 1000⌋.toNat := by
  intro v hv
  by_cases h0 : v = 0
  · subst h0
    decide
  · have hts : 0 ≤ ⌊v / 1000⌋ :=
      Int.floor_nonneg.mpr (by positivity)
    obtain ⟨N, hN⟩ : ∃ N : ℕ, ⌊v / 1000⌋ = (N : ℤ) :=
      ⟨⌊v / 1000⌋.toNat, (Int.toNat_of_nonneg hts).symm⟩
    simp only [formatDuration]
    rw [if_neg h0, hN, renderDuration_natCast, Int.toNat_ofNat]
    split_ifs with hh
    · rw [parseDurationBack_hms]
      congr 1
      omega
    · rw [parseDurationBack_min_sec]
      congr 1
      omega

theorem formatDuration_round_trip_witness :
    (0 ≤ (3725999 : ℚ)) ∧ parseDurationBack (formatDuration (some 3725999)) = some 3725 :=
  ⟨by norm_num, (formatDuration_round_trip 3725999 (by norm_num)).trans (by decide)⟩

/-! ## Lemmas on the analytics pipeline -/

theorem insertDesc_length (x : ℤ) (l : List ℤ) : (insertDesc x l).length = l.length + 1 := by
  induction l with
  | nil => rfl
  | cons y ys ih =>
    rw [insertDesc]
    split
    · rfl
    · simp [ih]

theorem sortDesc_length (l : List ℤ) : (sortDesc l).length = l.length := by
  induction l with
  | nil => rfl
  | cons x xs ih =>
    rw [sortDesc, List.foldr_cons, insertDesc_length]
    rw [sortDesc] at ih
    rw [ih, List.length_cons]

theorem intervalsAvg_none {cap : ℕ} {ds : List ℤ} (h : ds.length ≤ 1) :
    intervalsAvg cap ds = none := by
  rw [intervalsAvg, if_neg (by omega)]

theorem estimateFrequency_pos {v : ℚ} (h : 0 < v) :
    estimateFrequency (some v) = freqLabelSpec v := by
  simp only [estimateFrequency, freqLabelSpec]
  rw [if_neg h.ne']

/-- C2: the analyzers map degenerate inputs to null/unknown, never to an
error: both analyzers return `null` exactly on the empty list (so a
normalized podcast's `episode_insights` is `null` iff its episode list is
empty), and on a single episode the analytics record is still produced,
with a `null` `average_days_between_episodes` and an `"unknown"`
`publishing_frequency`. -/
theorem analyzers_degenerate_inputs :
    (∀ es : List RawEpisode, analyzeEpisodes es = none ↔ es = []) ∧
    (∀ es : List EpisodeRecord, generateEpisodeAnalytics es = none ↔ es = []) ∧
    (∀ (info : RawPodcast) (es : List RawEpisode),
      (podcastDetails info es).episode_insights = none ↔ es = []) ∧
    (∀ ep : EpisodeRecord,
      (generateEpisodeAnalytics [ep]).map (fun r => r.average_days_between_episodes) =
        some none ∧
      (generateEpisodeAnalytics [ep]).map (fun r => r.publishing_frequency) =
        some "unknown" ∧
      (generateEpisodeAnalytics [ep]).map (fun r => r.total_episodes) = some 1) := by
  have h1 : ∀ es : List RawEpisode, analyzeEpisodes es = none ↔ es = [] := by
    intro es
    rw [analyzeEpisodes]
    split
    · simp_all
    · simp_all
  have h2 : ∀ es : List EpisodeRecord, generateEpisodeAnalytics es = none ↔ es = [] := by
    intro es
    rw [generateEpisodeAnalytics]
    split
    · simp_all
    · simp_all
  refine ⟨h1, h2, ?_, ?_⟩
  · intro info es
    exact h1 es
  · intro ep
    have hshort :
        intervalsAvg 20 (sortDesc (parsedDates ([ep].map (fun e => e.release_date)))) = none :=
      intervalsAvg_none (by
        rw [sortDesc_length]
        exact le_trans (List.length_filterMap_le _ _) (by simp))
    simp only [generateEpisodeAnalytics]
    rw [if_neg (by simp : ¬([ep] : List EpisodeRecord) = []), hshort]
    exact ⟨rfl, rfl, rfl⟩

/-- C3 (amended): whenever the capped interval averaging of the
episode-list analyzer yields a positive mean `m` (at least two valid
parseable timestamps, not all equal), the analytics record carries
`average_days_between_episodes = round m` (non-null) and classifies the
unrounded mean by the inclusive thresholds 1.5/4/9/18/35
(`freqLabelSpec`); in particular episodes released exactly 7 days apart
give `publishing_frequency = "weekly"` and
`average_days_between_episodes = 7`.  (The claim as frozen is refuted by
a zero mean: see the counterexample.) -/
theorem generateEpisodeAnalytics_frequency (es : List EpisodeRecord) (m : ℚ)
    (hm : intervalsAvg 20 (sortDesc (parsedDates (es.map (fun e => e.release_date)))) = some m)
    (hpos : 0 < m) :
    (∃ r, generateEpisodeAnalytics es = some r ∧
      r.average_days_between_episodes = some (round m) ∧
      r.publishing_frequency = freqLabelSpec m) ∧
    (generateEpisodeAnalytics weeklyEpisodes).map
      (fun r => (r.publishing_frequency, r.average_days_between_episodes)) =
      some ("weekly", some 7) := by
  have hlen : 1 < (sortDesc (parsedDates (es.map (fun e => e.release_date)))).length := by
    by_contra hc
    rw [intervalsAvg_none (by omega)] at hm
    exact Option.noConfusion hm
  have hne : es ≠ [] := by
    intro he
    subst he
    simp [sortDesc, parsedDates] at hlen
  simp only [generateEpisodeAnalytics]
  rw [if_neg hne, hm]
  refine ⟨⟨_, rfl, ?_, ?_⟩, by decide⟩
  · simp only [jsRoundOpt]
    rw [if_neg hpos.ne']
  · exact estimateFrequency_pos hpos

/-- C3 counterexample: two episodes with the same valid release timestamp
give two valid parseable timestamps, yet `average_days_between_episodes`
is null (the zero mean is falsy) — refuting the claim that two valid
timestamps always produce a non-null rounded mean. -/
theorem generateEpisodeAnalytics_zero_mean_counterexample :
    1 < (sortDesc (parsedDates (sameDayEpisodes.map (fun e => e.release_date)))).length ∧
    (generateEpisodeAnalytics sameDayEpisodes).map
      (fun r => (r.average_days_between_episodes, r.publishing_frequency)) =
      some (none, "unknown") := by decide

theorem generateEpisodeAnalytics_frequency_witness :
    intervalsAvg 20
      (sortDesc (parsedDates (weeklyEpisodes.map (fun e => e.release_date)))) = some 7 ∧
    (0 : ℚ) < 7 ∧
    (∃ r, generateEpisodeAnalytics weeklyEpisodes = some r ∧
      r.average_days_between_episodes = some (round (7 : ℚ)) ∧
      r.publishing_frequency = freqLabelSpec 7) :=
  ⟨by decide, by norm_num,
    (generateEpisodeAnalytics_frequency weeklyEpisodes 7 (by decide) (by norm_num)).1⟩

theorem getD_take {l : List ℤ} {n i : ℕ} (h : i < n) (d : ℤ) :
    (l.take n).getD i d = l.getD i d := by
  rw [List.getD_eq_getElem?_getD, List.getD_eq_getElem?_getD, List.getElem?_take, if_pos h]

/-- C4: interval averaging only looks at the first `cap` consecutive
pairs of the sorted date list — the average is unchanged by truncating
the dates to the first `cap + 1` entries; `analyzeEpisodes` applies it
with cap 10 and `generateEpisodeAnalytics` with cap 20; consequently, for
25 episodes at 1-day spacing followed by a 1000-day gap at pair position
25, the cap-20 average is exactly 1 (the uncapped 25-pair mean would be
1024/25). -/
theorem intervalsAvg_lookback_cap :
    (∀ (cap : ℕ) (ds : List ℤ), 0 < cap →
      intervalsAvg cap ds = intervalsAvg cap (ds.take (cap + 1))) ∧
    (∀ es : List RawEpisode,
      (analyzeEpisodes es).map (fun r => r.publishing_frequency_days) =
        if es = [] then none
        else some (jsRoundOpt (intervalsAvg 10
          (sortDesc (parsedDates (es.map (fun e => e.releaseDate))))))) ∧
    (∀ es : List EpisodeRecord,
      (generateEpisodeAnalytics es).map (fun r => r.average_days_between_episodes) =
        if es = [] then none
        else some (jsRoundOpt (intervalsAvg 20
          (sortDesc (parsedDates (es.map (fun e => e.release_date))))))) ∧
    intervalsAvg 20
      (sortDesc (parsedDates (dailyThenGapEpisodes.map (fun e => e.release_date)))) = some 1 ∧
    intervalsAvg 25
      (sortDesc (parsedDates (dailyThenGapEpisodes.map (fun e => e.release_date)))) =
      some (1024 / 25) ∧
    (generateEpisodeAnalytics dailyThenGapEpisodes).map
      (fun r => r.average_days_between_episodes) = some (some 1) := by
  refine ⟨?_, ?_, ?_, by decide, by decide, by decide⟩
  · intro cap ds hcap
    by_cases hlen : 1 < ds.length
    · have hlen' : 1 < (ds.take (cap + 1)).length := by
        rw [List.length_take]
        omega
      simp only [intervalsAvg]
      rw [if_pos hlen, if_pos hlen']
      have hk : min ((ds.take (cap + 1)).length - 1) cap = min (ds.length - 1) cap := by
        rw [List.length_take]
        omega
      rw [hk]
      have hmap :
          (List.range (min (ds.length - 1) cap)).map
            (fun i => (((ds.take (cap + 1)).getD i 0 - (ds.take (cap + 1)).getD (i + 1) 0 : ℤ) :
              ℚ) / 86400000) =
          (List.range (min (ds.length - 1) cap)).map
            (fun i => ((ds.getD i 0 - ds.getD (i + 1) 0 : ℤ) : ℚ) / 86400000) := by
        refine List.map_congr_left ?_
        intro i hi
        rw [List.mem_range] at hi
        rw [getD_take (by omega), getD_take (by omega)]
      rw [hmap]
    · rw [intervalsAvg_none (by omega),
        intervalsAvg_none (by rw [List.length_take]; omega)]
  · intro es
    simp only [analyzeEpisodes]
    split
    · rfl
    · rfl
  · intro es
    simp only [generateEpisodeAnalytics]
    split
    · rfl
    · rfl

/-- C7: missing fields degrade gracefully, never raising: normalizing an
episode without `trackTimeMillis` yields a null `duration_ms` and a
`"0:00"` `duration_formatted` (in both episode normalizers), and an
episode whose duration is missing and whose release date does not parse
is silently excluded from every aggregate of the analyzer — appending it
changes no analytics field except the episode count.  (In this embedding
every core function is a total Lean function, so no input shape can
raise.) -/
theorem normalization_graceful_degradation :
    (∀ raw : RawEpisode, raw.trackTimeMillis = none →
      (normalizeSearchEpisode raw).duration_ms = none ∧
      (normalizeSearchEpisode raw).duration_formatted = "0:00" ∧
      (normalizeEpisode raw).duration_ms = none ∧
      (normalizeEpisode raw).duration_formatted = "0:00") ∧
    (∀ (es : List RawEpisode) (ep : RawEpisode), ep.trackTimeMillis = none →
      ep.releaseDate.bind parseISODate = none → es ≠ [] →
      ∃ r r', analyzeEpisodes es = some r ∧ analyzeEpisodes (es ++ [ep]) = some r' ∧
        r'.average_duration_seconds = r.average_duration_seconds ∧
        r'.average_duration_minutes = r.average_duration_minutes ∧
        r'.publishing_frequency_days = r.publishing_frequency_days ∧
        r'.estimated_schedule = r.estimated_schedule ∧
        r'.total_analyzed = r.total_analyzed + 1) := by
  constructor
  · intro raw h
    refine ⟨h, ?_, h, ?_⟩
    · show formatDuration (raw.trackTimeMillis.map (fun t => (t : ℚ))) = "0:00"
      rw [h]
      rfl
    · show formatDuration (raw.trackTimeMillis.map (fun t => (t : ℚ))) = "0:00"
      rw [h]
      rfl
  · intro es ep hd hr hne
    have hdur : positiveDurations ((es ++ [ep]).map (fun e => e.trackTimeMillis)) =
        positiveDurations (es.map (fun e => e.trackTimeMillis)) := by
      rw [List.map_append]
      simp [positiveDurations, List.filterMap_append, hd]
    have hdates : parsedDates ((es ++ [ep]).map (fun e => e.releaseDate)) =
        parsedDates (es.map (fun e => e.releaseDate)) := by
      rw [List.map_append]
      simp [parsedDates, List.filterMap_append, hr]
    simp only [analyzeEpisodes]
    rw [if_neg hne, if_neg (by simp), hdur, hdates]
    exact ⟨_, _, rfl, rfl, rfl, rfl, rfl, rfl, by simp⟩

theorem normalization_graceful_degradation_witness :
    badRawEpisode.trackTimeMillis = none ∧
    badRawEpisode.releaseDate.bind parseISODate = none ∧
    demoRawEpisodes ≠ [] ∧
    (∃ r r', analyzeEpisodes demoRawEpisodes = some r ∧
      analyzeEpisodes (demoRawEpisodes ++ [badRawEpisode]) = some r' ∧
      r'.average_duration_seconds = r.average_duration_seconds ∧
      r'.average_duration_minutes = r.average_duration_minutes ∧
      r'.publishing_frequency_days = r.publishing_frequency_days ∧
      r'.estimated_schedule = r.estimated_schedule ∧
      r'.total_analyzed = r.total_analyzed + 1) :=
  ⟨rfl, by decide, by decide,
    normalization_graceful_degradation.2 demoRawEpisodes badRawEpisode rfl (by decide) (by decide)⟩

/-! ## The search-context estimator -/

theorem lookup_eq_none_of_forall_ne {g : String} :
    ∀ (l : List (String × ℚ)), (∀ p ∈ l, g ≠ p.1) → List.lookup g l = none := by
  intro l
  induction l with
  | nil => intro _; rfl
  | cons p ps ih =>
    intro hall
    obtain ⟨k, v⟩ := p
    rw [List.lookup, beq_eq_false_iff_ne.mpr (hall ⟨k, v⟩ (by simp))]
    exact ih (fun q hq => hall q (by simp [hq]))

theorem searchMultSpec_of_not_mem {g : String} (h : g ∉ baseMultiplier.map Prod.fst) :
    searchMultSpec g = 4000 := by
  unfold searchMultSpec
  split <;> first | rfl | simp_all [baseMultiplier]

theorem estimateListeners_eq_spec (n : ℚ) (g : String) :
    estimateListeners n (some g) = ⌊(searchMultSpec g : ℚ) * (1 + min (n / 100) 5)⌋ := by
  by_cases h1 : g = "True Crime"
  · subst h1; rfl
  by_cases h2 : g = "News"
  · subst h2; rfl
  by_cases h3 : g = "Comedy"
  · subst h3; rfl
  by_cases h4 : g = "Business"
  · subst h4; rfl
  by_cases h5 : g = "Technology"
  · subst h5; rfl
  by_cases h6 : g = "Sports"
  · subst h6; rfl
  by_cases h7 : g = "Health & Fitness"
  · subst h7; rfl
  by_cases h8 : g = "Education"
  · subst h8; rfl
  by_cases h9 : g = "Society & Culture"
  · subst h9; rfl
  by_cases h10 : g = "default"
  · subst h10; rfl
  have hmem : g ∉ baseMultiplier.map Prod.fst := by
    intro hm
    simp only [baseMultiplier, List.map_cons, List.map_nil, List.mem_cons,
      List.not_mem_nil] at hm
    rcases hm with h | h | h | h | h | h | h | h | h | h | h <;> simp_all
  have hlk : List.lookup g baseMultiplier = none :=
    lookup_eq_none_of_forall_ne baseMultiplier (by
      intro p hp
      intro he
      exact hmem (by rw [he]; exact List.mem_map_of_mem Prod.fst hp))
  simp only [estimateListeners, Option.some_bind, hlk, Option.getD_none,
    searchMultSpec_of_not_mem hmem]
  norm_num

/-- C6: the search-context estimator returns
`floor(multiplier * (1 + min(episodeCount / 100, 5)))` where the
multiplier is the genre's table entry (True Crime 15000, News 12000,
Comedy 10000, Business 8000, Technology 7000, Sports 9000,
Health & Fitness 6000, Education 5000, Society & Culture 5500) and 4000
for a genre absent from the table; every unmapped genre string gives the
same result for a given episode count. -/
theorem estimateListeners_meets_spec :
    (∀ (g : String) (n : ℚ),
      estimateListeners n (some g) = ⌊(searchMultSpec g : ℚ) * (1 + min (n / 100) 5)⌋) ∧
    searchMultSpec "True Crime" = 15000 ∧ searchMultSpec "News" = 12000 ∧
    searchMultSpec "Comedy" = 10000 ∧ searchMultSpec "Business" = 8000 ∧
    searchMultSpec "Technology" = 7000 ∧ searchMultSpec "Sports" = 9000 ∧
    searchMultSpec "Health & Fitness" = 6000 ∧ searchMultSpec "Education" = 5000 ∧
    searchMultSpec "Society & Culture" = 5500 ∧
    (∀ (g g' : String) (n : ℚ), g ∉ baseMultiplier.map Prod.fst →
      g' ∉ baseMultiplier.map Prod.fst →
      estimateListeners n (some g) = estimateListeners n (some g')) := by
  refine ⟨fun g n => estimateListeners_eq_spec n g, rfl, rfl, rfl, rfl, rfl, rfl, rfl, rfl, rfl,
    ?_⟩
  intro g g' n hg hg'
  rw [estimateListeners_eq_spec, estimateListeners_eq_spec,
    searchMultSpec_of_not_mem hg, searchMultSpec_of_not_mem hg']

theorem estimateListeners_meets_spec_witness :
    ("Unknown Genre" ∉ baseMultiplier.map Prod.fst) ∧
    ("Gardening" ∉ baseMultiplier.map Prod.fst) ∧
    estimateListeners 42 (some "Unknown Genre") = estimateListeners 42 (some "Gardening") :=
  ⟨by decide, by decide,
    estimateListeners_meets_spec.2.2.2.2.2.2.2.2.2.2 "Unknown Genre" "Gardening" 42
      (by decide) (by decide)⟩

/-- C10: for every fixed genre string the search-context listener
estimate is monotone nondecreasing in the episode count over the
non-negative integers, equals the genre multiplier exactly at episode
count 0, is bounded by six times the multiplier, and attains that bound
for every episode count at least 500 (the episode factor saturates
at 5). -/
theorem estimateListeners_shape (g : String) :
    (∀ m n : ℕ, m ≤ n →
      estimateListeners (m : ℚ) (some g) ≤ estimateListeners (n : ℚ) (some g)) ∧
    estimateListeners ((0 : ℕ) : ℚ) (some g) = (searchMultSpec g : ℤ) ∧
    (∀ n : ℕ, estimateListeners (n : ℚ) (some g) ≤ 6 * (searchMultSpec g : ℤ)) ∧
    (∀ n : ℕ, 500 ≤ n → estimateListeners (n : ℚ) (some g) = 6 * (searchMultSpec g : ℤ)) := by
  refine ⟨?_, ?_, ?_, ?_⟩
  · intro m n hmn
    rw [estimateListeners_eq_spec, estimateListeners_eq_spec]
    apply Int.floor_le_floor
    gcongr
  · rw [estimateListeners_eq_spec]
    rw [show min (((0 : ℕ) : ℚ) / 100) 5 = 0 by norm_num]
    rw [show ((searchMultSpec g : ℚ)) * (1 + 0) = ((searchMultSpec g : ℕ) : ℚ) by ring]
    exact Int.floor_natCast _
  · intro n
    rw [estimateListeners_eq_spec]
    have h1 : (searchMultSpec g : ℚ) * (1 + min ((n : ℚ) / 100) 5) ≤
        (searchMultSpec g : ℚ) * 6 := by
      have hm5 : min ((n : ℚ) / 100) 5 ≤ 5 := min_le_right _ _
      have hM : (0 : ℚ) ≤ (searchMultSpec g : ℚ) := by positivity
      nlinarith
    calc ⌊(searchMultSpec g : ℚ) * (1 + min ((n : ℚ) / 100) 5)⌋
        ≤ ⌊(searchMultSpec g : ℚ) * 6⌋ := Int.floor_le_floor h1
      _ = 6 * (searchMultSpec g : ℤ) := by
          rw [show ((searchMultSpec g : ℚ)) * 6 = ((6 * searchMultSpec g : ℕ) : ℚ) by
            push_cast; ring]
          rw [Int.floor_natCast]
          push_cast
          ring
  · intro n hn
    rw [estimateListeners_eq_spec]
    have hmin : min ((n : ℚ) / 100) 5 = 5 := by
      apply min_eq_right
      rw [le_div_iff (by norm_num)]
      exact_mod_cast (by omega : (500 : ℕ) ≤ n)
    rw [hmin]
    rw [show ((searchMultSpec g : ℚ)) * (1 + 5) = ((6 * searchMultSpec g : ℕ) : ℚ) by
      push_cast; ring]
    rw [Int.floor_natCast]
    push_cast
    ring

theorem estimateListeners_shape_witness :
    (3 ≤ 700) ∧ (500 ≤ 700) ∧
    estimateListeners ((3 : ℕ) : ℚ) (some "Comedy") ≤
      estimateListeners ((700 : ℕ) : ℚ) (some "Comedy") ∧
    estimateListeners ((700 : ℕ) : ℚ) (some "Comedy") = 6 * (searchMultSpec "Comedy" : ℤ) :=
  ⟨by norm_num, by norm_num, (estimateListeners_shape "Comedy").1 3 700 (by norm_num),
    (estimateListeners_shape "Comedy").2.2.2 700 (by norm_num)⟩

/-- C9: the two frequency classifiers agree everywhere except on truthy
averages in the interval (1.5, 4], where the podcast-detail classifier
says `"2-3 times per week"` and the episode-list classifier says
`"multiple times per week"`; on every other input — including the falsy
`null` and `0`, which both map to `"unknown"` — the two functions are
equal. -/
theorem schedule_vs_frequency_labels :
    estimateSchedule none = estimateFrequency none ∧
    (∀ v : ℚ, 3 / 2 < v → v ≤ 4 →
      estimateSchedule (some v) = "2-3 times per week" ∧
      estimateFrequency (some v) = "multiple times per week" ∧
      estimateSchedule (some v) ≠ estimateFrequency (some v)) ∧
    (∀ v : ℚ, ¬(3 / 2 < v ∧ v ≤ 4) →
      estimateSchedule (some v) = estimateFrequency (some v)) := by
  refine ⟨rfl, ?_, ?_⟩
  · intro v h1 h2
    have h0 : ¬v = 0 := by
      intro h
      rw [h] at h1
      norm_num at h1
    have h15 : ¬v ≤ (1.5 : ℚ) := by
      rw [show (1.5 : ℚ) = 3 / 2 by norm_num]
      linarith
    simp only [estimateSchedule, estimateFrequency, if_neg h0, if_neg h15, if_pos h2]
    refine ⟨by trivial, by trivial, by decide⟩
  · intro v hv
    by_cases h0 : v = 0
    · subst h0
      rfl
    by_cases h15 : v ≤ (1.5 : ℚ)
    · simp only [estimateSchedule, estimateFrequency, if_neg h0, if_pos h15]
    · have h4 : ¬v ≤ 4 := by
        intro h
        apply hv
        refine ⟨?_, h⟩
        rw [show (1.5 : ℚ) = 3 / 2 by norm_num] at h15
        linarith
      simp only [estimateSchedule, estimateFrequency, if_neg h0, if_neg h15, if_neg h4]

theorem schedule_vs_frequency_labels_witness :
    ((3 / 2 : ℚ) < 2 ∧ (2 : ℚ) ≤ 4) ∧
    estimateSchedule (some 2) = "2-3 times per week" ∧
    estimateFrequency (some 2) = "multiple times per week" :=
  ⟨⟨by norm_num, by norm_num⟩,
    (schedule_vs_frequency_labels.2.1 2 (by norm_num) (by norm_num)).1,
    (schedule_vs_frequency_labels.2.1 2 (by norm_num) (by norm_num)).2.1⟩

/-! ## The detail-context estimator and the base-10 logarithm of 101 -/

set_option maxHeartbeats 1000000 in
theorem logb101_lb : (25054 : ℝ) / 12500 ≤ Real.logb 10 101 := by
  have hpow : ((10 : ℝ)) ^ (25054 : ℕ) ≤ (101 : ℝ) ^ (12500 : ℕ) := by
    have h : (10 : ℕ) ^ 25054 ≤ 101 ^ 12500 := by norm_num
    exact_mod_cast h
  have hlog := (Real.log_le_log_iff (by positivity) (by positivity)).mpr hpow
  rw [Real.log_pow, Real.log_pow] at hlog
  rw [Real.logb, div_le_div_iff (by norm_num) (Real.log_pos (by norm_num))]
  push_cast at hlog
  linarith

set_option maxHeartbeats 1000000 in
theorem logb101_ub : Real.logb 10 101 < (25055 : ℝ) / 12500 := by
  have hpow : ((101 : ℝ)) ^ (2500 : ℕ) < (10 : ℝ) ^ (5011 : ℕ) := by
    have h : (101 : ℕ) ^ 2500 < 10 ^ 5011 := by norm_num
    exact_mod_cast h
  have hlog := (Real.log_lt_log_iff (by positivity) (by positivity)).mpr hpow
  rw [Real.log_pow, Real.log_pow] at hlog
  rw [Real.logb, div_lt_div_iff (Real.log_pos (by norm_num)) (by norm_num)]
  push_cast at hlog
  linarith

theorem estimateMetrics_weekly_tc :
    (estimateMetrics { primaryGenreName := some "True Crime" } 100).estimated_weekly_listeners =
      25054 := by
  have h : (estimateMetrics { primaryGenreName := some "True Crime" }
        100).estimated_weekly_listeners =
      ⌊(5000 : ℝ) * ((2.5 : ℚ) : ℝ) * Real.logb 10 (((100 : ℕ) : ℝ) + 1)⌋ := rfl
  rw [h, show ((2.5 : ℚ) : ℝ) = 2.5 by norm_num, show (((100 : ℕ) : ℝ) + 1) = 101 by norm_num]
  rw [Int.floor_eq_iff]
  constructor
  · push_cast
    nlinarith [logb101_lb]
  · push_cast
    nlinarith [logb101_ub]

theorem estimateMetrics_downloads_tc :
    (estimateMetrics { primaryGenreName := some "True Crime" }
        100).estimated_downloads_per_episode = 17537 := by
  rw [show (estimateMetrics { primaryGenreName := some "True Crime" }
        100).estimated_downloads_per_episode =
      ⌊(((estimateMetrics { primaryGenreName := some "True Crime" }
        100).estimated_weekly_listeners : ℤ) : ℝ) * 0.7⌋ from rfl]
  rw [estimateMetrics_weekly_tc]
  rw [Int.floor_eq_iff]
  constructor
  · norm_num
  · norm_num

/-- C5 counterexample: for the genre `"True Crime"` and 100 episodes the
detail-context estimator returns `floor(12500 * log10(101)) = 25054`
weekly listeners, not the 25053 the claim states
(`12500 * log10(101) ≈ 25054.017`). -/
theorem estimateMetrics_claimed_value_counterexample :
    (estimateMetrics { primaryGenreName := some "True Crime" } 100).estimated_weekly_listeners ≠
      25053 := by
  rw [estimateMetrics_weekly_tc]
  decide

/-- C5 (amended): the detail-context estimator computes
`weeklyListeners = floor(5000 * multiplier * log10(episodeCount + 1))`
and `downloadsPerEpisode = floor(weeklyListeners * 0.7)`, with multiplier
2.5 for `"True Crime"` and 1.0 for genres outside its table, and a fixed
`confidence = "low"`; for `("True Crime", 100)` it returns 25054
estimated weekly listeners (not 25053 as the frozen claim says — see the
counterexample) and 17537 estimated downloads per episode. -/
theorem estimateMetrics_formula :
    (∀ (p : RawPodcast) (n : ℕ), p.primaryGenreName = some "True Crime" →
      (estimateMetrics p n).estimated_weekly_listeners =
        ⌊(5000 : ℝ) * 2.5 * Real.logb 10 ((n : ℝ) + 1)⌋) ∧
    (∀ (p : RawPodcast) (n : ℕ) (g : String), p.primaryGenreName = some g →
      g ∉ genreMultipliers.map Prod.fst →
      (estimateMetrics p n).estimated_weekly_listeners =
        ⌊(5000 : ℝ) * 1 * Real.logb 10 ((n : ℝ) + 1)⌋) ∧
    (∀ (p : RawPodcast) (n : ℕ),
      (estimateMetrics p n).confidence = "low" ∧
      (estimateMetrics p n).estimated_downloads_per_episode =
        ⌊(((estimateMetrics p n).estimated_weekly_listeners : ℤ) : ℝ) * 0.7⌋) ∧
    (estimateMetrics { primaryGenreName := some "True Crime" } 100).estimated_weekly_listeners =
      25054 ∧
    (estimateMetrics { primaryGenreName := some "True Crime" }
        100).estimated_downloads_per_episode = 17537 := by
  have hshow : ∀ (p : RawPodcast) (n : ℕ),
      (estimateMetrics p n).estimated_weekly_listeners =
        ⌊(5000 : ℝ) *
          (((p.primaryGenreName.bind (fun g => List.lookup g genreMultipliers)).getD 1.0 : ℚ) :
            ℝ) * Real.logb 10 ((n : ℝ) + 1)⌋ :=
    fun p n => rfl
  refine ⟨?_, ?_, fun p n => ⟨rfl, rfl⟩, estimateMetrics_weekly_tc, estimateMetrics_downloads_tc⟩
  · intro p n hg
    rw [hshow, hg, Option.some_bind,
      show List.lookup "True Crime" genreMultipliers = some 2.5 from rfl, Option.getD_some]
    norm_num
  · intro p n g hg hmem
    rw [hshow, hg, Option.some_bind,
      lookup_eq_none_of_forall_ne genreMultipliers
        (fun q hq he => hmem (by rw [he]; exact List.mem_map_of_mem Prod.fst hq)),
      Option.getD_none]
    norm_num

theorem estimateMetrics_formula_witness :
    (({ primaryGenreName := some "Polka" } : RawPodcast).primaryGenreName = some "Polka") ∧
    ("Polka" ∉ genreMultipliers.map Prod.fst) ∧
    (estimateMetrics { primaryGenreName := some "Polka" } 0).estimated_weekly_listeners =
      ⌊(5000 : ℝ) * 1 * Real.logb 10 (((0 : ℕ) : ℝ) + 1)⌋ :=
  ⟨rfl, by decide, estimateMetrics_formula.2.1 _ 0 "Polka" rfl (by decide)⟩
